import Mathlib

/-!
Verification of the pfastcgi FastCGI client codec (src/pfastcgi.hpp).

The C++ source is shallowly embedded: each struct becomes a Lean structure
whose fields are the byte fields of the C++ struct (bytes modelled as `Nat`
with explicit `% 256` wherever the C++ code truncates to `unsigned char`),
each constructor / member function becomes a Lean function, and the
socket-owning `FcgiManager` classes become explicit state passing over a
record of the `fcgifd_` field, with the `close(fd)` system calls issued by
an operation returned as a trace list.
-/

namespace pfcgi

/-- Source: `const int kFcgiVersion = 1;` -/
def kFcgiVersion : Nat := 1

/-- Source: `const int kFcgiKeepAlive = 1;` -/
def kFcgiKeepAlive : Nat := 1

/-- Source: `enum FcgiType`: the members used by the write path. -/
def kTypeBegin : Nat := 1

def kTypeParams : Nat := 4

/-- Source: `enum FcgiRole { kRoleResponder = 1, ... }` -/
def kRoleResponder : Nat := 1

/-- The eight byte fields of `struct FcgiHeader`, in declaration order. -/
structure FcgiHeader where
  version : Nat
  type : Nat
  request_id1 : Nat
  request_id0 : Nat
  content_length1 : Nat
  content_length0 : Nat
  padding_length : Nat
  reserved : Nat
deriving Repr, DecidableEq

/-- Source: `FcgiHeader(FcgiType type, int content_length, int request_id = 1,
int padding_length = 0)`: the member-initializer list splits `request_id`
and `content_length` into big-endian byte pairs with `(x >> 8) & 0xff` and
`x & 0xff`, fixes `version` to `kFcgiVersion` and `reserved` to 0.  Storage
into a `Byte` field truncates mod 256. -/
def mkFcgiHeader (type content_length request_id padding_length : Nat) :
    FcgiHeader :=
  ⟨kFcgiVersion, type % 256,
   (request_id >>> 8) % 256, request_id % 256,
   (content_length >>> 8) % 256, content_length % 256,
   padding_length % 256, 0⟩

/-- Source: `int request_id() const { return (request_id1 << 8) + request_id0; }` -/
def FcgiHeader.request_id (h : FcgiHeader) : Nat :=
  (h.request_id1 <<< 8) + h.request_id0

/-- Source: `int content_length() const { return (content_length1 << 8) + content_length0; }` -/
def FcgiHeader.content_length (h : FcgiHeader) : Nat :=
  (h.content_length1 <<< 8) + h.content_length0

/-- Source: `void set_request_id(int request_id)` -/
def FcgiHeader.set_request_id (h : FcgiHeader) (request_id : Nat) : FcgiHeader :=
  ⟨h.version, h.type, (request_id >>> 8) % 256, request_id % 256,
   h.content_length1, h.content_length0, h.padding_length, h.reserved⟩

/-- Source: `void set_content_length(int content_length)` -/
def FcgiHeader.set_content_length (h : FcgiHeader) (content_length : Nat) :
    FcgiHeader :=
  ⟨h.version, h.type, h.request_id1, h.request_id0,
   (content_length >>> 8) % 256, content_length % 256,
   h.padding_length, h.reserved⟩

/-- The wire image of a header: its eight bytes in memory (= transmission)
order.  `doWrite(&header, sizeof(header))` sends exactly these bytes. -/
def FcgiHeader.bytes (h : FcgiHeader) : List Nat :=
  [h.version, h.type, h.request_id1, h.request_id0,
   h.content_length1, h.content_length0, h.padding_length, h.reserved]

/-- The big-endian byte-pair split followed by the `(hi << 8) + lo`
recombination is reduction mod 2^16. -/
theorem split_combine (v : Nat) :
    (((v >>> 8) % 256) <<< 8) + v % 256 = v % 65536 := by
  simp only [Nat.shiftRight_eq_div_pow, Nat.shiftLeft_eq]
  norm_num
  omega

/-- C2: for every 16-bit value `v`, setting `request_id` (resp.
`content_length`) through the two-byte big-endian split and reading it back
through the combining accessor yields exactly `v`. -/
theorem header_roundtrip_16bit (h : FcgiHeader) (v : Nat) (hv : v < 65536) :
    (h.set_request_id v).request_id = v ∧
    (h.set_content_length v).content_length = v := by
  constructor <;>
    simp only [FcgiHeader.set_request_id, FcgiHeader.set_content_length,
      FcgiHeader.request_id, FcgiHeader.content_length, split_combine] <;>
    omega

/-- Witness for C2 at `v = 43981` (0xABCD). -/
theorem header_roundtrip_16bit_witness :
    ((mkFcgiHeader 1 0 0 0).set_request_id 43981).request_id = 43981 ∧
    ((mkFcgiHeader 1 0 0 0).set_content_length 43981).content_length = 43981 :=
  header_roundtrip_16bit (mkFcgiHeader 1 0 0 0) 43981 (by decide)

/-- C3: for every input exceeding 65535, the encode/read-back pair silently
truncates to the value mod 2^16 (both through the setters and through the
constructor); the operations are total, so no error or rejection occurs. -/
theorem header_truncates_over_16bit (h : FcgiHeader)
    (type content_length request_id padding_length v : Nat)
    (hv : 65535 < v) :
    (h.set_request_id v).request_id = v % 65536 ∧
    (h.set_content_length v).content_length = v % 65536 ∧
    (mkFcgiHeader type content_length v padding_length).request_id =
      v % 65536 ∧
    (mkFcgiHeader type v request_id padding_length).content_length =
      v % 65536 := by
  refine ⟨?_, ?_, ?_, ?_⟩ <;>
    simp only [FcgiHeader.set_request_id, FcgiHeader.set_content_length,
      mkFcgiHeader, FcgiHeader.request_id, FcgiHeader.content_length,
      split_combine]

/-- Witness for C3 at `v = 65536 + 7`. -/
theorem header_truncates_over_16bit_witness :
    ((mkFcgiHeader 1 0 0 0).set_request_id 65543).request_id = 65543 % 65536 ∧
    ((mkFcgiHeader 1 0 0 0).set_content_length 65543).content_length =
      65543 % 65536 ∧
    (mkFcgiHeader 1 0 65543 0).request_id = 65543 % 65536 ∧
    (mkFcgiHeader 1 65543 1 0).content_length = 65543 % 65536 :=
  header_truncates_over_16bit (mkFcgiHeader 1 0 0 0) 1 0 1 0 65543 (by decide)

/-- C4: the header for a begin-request record with `content_length = 8`,
`request_id = 1` and the default `padding_length = 0` is exactly the byte
sequence 01 01 00 01 00 08 00 00 (version fixed to 1, reserved byte 0). -/
theorem header_begin_request_bytes :
    (mkFcgiHeader kTypeBegin 8 1 0).bytes =
      [0x01, 0x01, 0x00, 0x01, 0x00, 0x08, 0x00, 0x00] := by
  decide

/-- The byte fields of `struct FcgiRequestBeginBody`: `role1`, `role0`,
`flags` and the five-byte array `Byte reserved[5]` (one field per array
element). -/
structure FcgiRequestBeginBody where
  role1 : Nat
  role0 : Nat
  flags : Nat
  reserved0 : Nat
  reserved1 : Nat
  reserved2 : Nat
  reserved3 : Nat
  reserved4 : Nat
deriving Repr, DecidableEq

/-- Source: `FcgiRequestBeginBody(int role, bool keep_alive)`: the member-initializer
list sets only `role1`, `role0` and `flags` (the bool converts to byte 1 or
0).  The `reserved` array is NOT in the initializer list and the constructor
body is empty, so its five bytes are default-initialized, i.e. indeterminate:
they keep whatever values `j0..j4` the underlying memory already held. -/
def mkFcgiRequestBeginBody (role : Nat) (keep_alive : Bool)
    (j0 j1 j2 j3 j4 : Nat) : FcgiRequestBeginBody :=
  ⟨(role >>> 8) % 256, role % 256, if keep_alive then 1 else 0,
   j0, j1, j2, j3, j4⟩

/-- Source: `int role() const { return (role1 << 8) + role0; }` -/
def FcgiRequestBeginBody.role (b : FcgiRequestBeginBody) : Nat :=
  (b.role1 <<< 8) + b.role0

/-- The wire image of a begin-request body: its eight bytes in memory order. -/
def FcgiRequestBeginBody.bytes (b : FcgiRequestBeginBody) : List Nat :=
  [b.role1, b.role0, b.flags,
   b.reserved0, b.reserved1, b.reserved2, b.reserved3, b.reserved4]

/-- C5 (code bug): with role = responder(1) and keep_alive = true the first
three bytes are 00 01 01 as claimed, but the five reserved bytes are the
uninitialized memory contents, not zero: constructed over memory holding
0xFF bytes the record is 00 01 01 FF FF FF FF FF, which differs from the
claimed 00 01 01 00 00 00 00 00. -/
theorem begin_body_reserved_uninitialized :
    (mkFcgiRequestBeginBody 1 true 255 255 255 255 255).bytes =
      [0x00, 0x01, 0x01, 0xFF, 0xFF, 0xFF, 0xFF, 0xFF] ∧
    (mkFcgiRequestBeginBody 1 true 255 255 255 255 255).bytes ≠
      [0x00, 0x01, 0x01, 0x00, 0x00, 0x00, 0x00, 0x00] := by
  decide

/-- The byte fields of `struct FcgiParams`: a 4-byte name-length group and a
4-byte value-length group. -/
structure FcgiParams where
  name_length3 : Nat
  name_length2 : Nat
  name_length1 : Nat
  name_length0 : Nat
  value_length3 : Nat
  value_length2 : Nat
  value_length1 : Nat
  value_length0 : Nat
deriving Repr, DecidableEq

/-- Source: `FcgiParams(int name_length, int value_length)`: each length is split
into four big-endian bytes with the top bit of the leading byte forced set
(`(x >> 24) | 0x80`); storage into `Byte` truncates each expression mod
256. -/
def mkFcgiParams (name_length value_length : Nat) : FcgiParams :=
  ⟨((name_length >>> 24) ||| 0x80) % 256, (name_length >>> 16) % 256,
   (name_length >>> 8) % 256, name_length % 256,
   ((value_length >>> 24) ||| 0x80) % 256, (value_length >>> 16) % 256,
   (value_length >>> 8) % 256, value_length % 256⟩

/-- The wire image of a params length group pair: its eight bytes in memory
order. -/
def FcgiParams.bytes (p : FcgiParams) : List Nat :=
  [p.name_length3, p.name_length2, p.name_length1, p.name_length0,
   p.value_length3, p.value_length2, p.value_length1, p.value_length0]

/-- The leading byte of each 4-byte length group always has bit 7 set. -/
theorem leading_byte_top_bit (x : Nat) :
    (((x >>> 24) ||| 0x80) % 256).testBit 7 = true := by
  have h256 : (256 : Nat) = 2 ^ 8 := by norm_num
  have h128 : Nat.testBit 128 7 = true := by decide
  rw [h256, Nat.testBit_mod_two_pow, Nat.testBit_or]
  simp [h128]

/-- C6: for every `name_length` and `value_length` the params codec emits the
8-byte long-form length pair with the top bit of each leading byte forced
set, and for lengths 1 and 1 produces exactly 80 00 00 01 80 00 00 01. -/
theorem params_long_form (name_length value_length : Nat) :
    (mkFcgiParams name_length value_length).name_length3.testBit 7 = true ∧
    (mkFcgiParams name_length value_length).value_length3.testBit 7 = true ∧
    (mkFcgiParams 1 1).bytes =
      [0x80, 0x00, 0x00, 0x01, 0x80, 0x00, 0x00, 0x01] := by
  refine ⟨leading_byte_top_bit name_length, leading_byte_top_bit value_length, ?_⟩
  decide

/-- Recovery of a length from its 4-byte group, as the claim describes it:
clear the forced top bit of the leading byte (`& 0x7f`) and recombine the
four bytes big-endian. -/
def recoverLength (b3 b2 b1 b0 : Nat) : Nat :=
  ((b3 &&& 0x7f) <<< 24) + (b2 <<< 16) + (b1 <<< 8) + b0

/-- Forcing bit 7 onto a 7-bit value and clearing it again is the identity. -/
theorem clear_forced_bit : ∀ x < 128, ((x ||| 0x80) % 256) &&& 0x7f = x := by
  decide

/-- C10: for lengths below 2^31, clearing the forced top bit of each leading
byte and recombining the four bytes big-endian recovers the encoded length
exactly — the forced 0x80 bit destroys no length information. -/
theorem params_length_recoverable (name_length value_length : Nat)
    (hn : name_length < 2 ^ 31) (hv : value_length < 2 ^ 31) :
    recoverLength (mkFcgiParams name_length value_length).name_length3
        (mkFcgiParams name_length value_length).name_length2
        (mkFcgiParams name_length value_length).name_length1
        (mkFcgiParams name_length value_length).name_length0 = name_length ∧
    recoverLength (mkFcgiParams name_length value_length).value_length3
        (mkFcgiParams name_length value_length).value_length2
        (mkFcgiParams name_length value_length).value_length1
        (mkFcgiParams name_length value_length).value_length0 =
      value_length := by
  have key : ∀ n : Nat, n < 2 ^ 31 →
      recoverLength (((n >>> 24) ||| 0x80) % 256) ((n >>> 16) % 256)
        ((n >>> 8) % 256) (n % 256) = n := by
    intro n hlt
    have hsmall : n >>> 24 < 128 := by
      simp only [Nat.shiftRight_eq_div_pow]
      omega
    unfold recoverLength
    rw [clear_forced_bit (n >>> 24) hsmall]
    simp only [Nat.shiftRight_eq_div_pow, Nat.shiftLeft_eq]
    norm_num
    omega
  exact ⟨key name_length hn, key value_length hv⟩

/-- Witness for C10 at name_length = 300, value_length = 2^31 - 1. -/
theorem params_length_recoverable_witness :
    recoverLength (mkFcgiParams 300 2147483647).name_length3
        (mkFcgiParams 300 2147483647).name_length2
        (mkFcgiParams 300 2147483647).name_length1
        (mkFcgiParams 300 2147483647).name_length0 = 300 ∧
    recoverLength (mkFcgiParams 300 2147483647).value_length3
        (mkFcgiParams 300 2147483647).value_length2
        (mkFcgiParams 300 2147483647).value_length1
        (mkFcgiParams 300 2147483647).value_length0 = 2147483647 :=
  params_length_recoverable 300 2147483647 (by decide) (by decide)

/-- Source: `sizeof(FcgiRequestBeginBody)` = 8 (eight byte fields, no padding). -/
def sizeofFcgiRequestBeginBody : Nat := 8

/-- Source: `doWrite(buf, length)` is a single `::send` call on the serialized bytes.
The transport is modelled by `send : List Nat → Int`, mapping the bytes
handed to the kernel to the call's result (bytes written, or negative on
error).  The second component is the trace of buffers written, one entry per
`send` call. -/
def doWrite (send : List Nat → Int) (buf : List Nat) :
    Int × List (List Nat) :=
  (send buf, [buf])

/-- Source: `int startParams(FcgiRole role, bool keep_alive, int request_id)`:
builds `FcgiRequestBegin msg{{kTypeBegin, sizeof(FcgiRequestBeginBody),
request_id}, {role, keep_alive}}` and issues one
`doWrite(&msg, sizeof(msg))` with the 16 bytes of header followed by body.
`j0..j4` are the indeterminate contents of the body's reserved array. -/
def startParams (send : List Nat → Int) (role : Nat) (keep_alive : Bool)
    (request_id : Nat) (j0 j1 j2 j3 j4 : Nat) : Int × List (List Nat) :=
  doWrite send
    ((mkFcgiHeader kTypeBegin sizeofFcgiRequestBeginBody request_id 0).bytes ++
      (mkFcgiRequestBeginBody role keep_alive j0 j1 j2 j3 j4).bytes)

/-- Source: `int endParams(int requestID)`: builds
`FcgiHeader header(kTypeParams, 0, requestID)` and issues one
`doWrite(&header, sizeof(header))`. -/
def endParams (send : List Nat → Int) (requestID : Nat) :
    Int × List (List Nat) :=
  doWrite send (mkFcgiHeader kTypeParams 0 requestID 0).bytes

/-- C7: for every role, keep_alive and request_id (and any contents of the
uninitialized reserved bytes), startParams issues exactly one transport
write, of the 8-byte begin-request header followed by the 8-byte
begin-request body — 16 bytes total — and returns the transport's result on
that buffer. -/
theorem start_request_writes_16 (send : List Nat → Int) (role : Nat)
    (keep_alive : Bool) (request_id j0 j1 j2 j3 j4 : Nat) :
    (startParams send role keep_alive request_id j0 j1 j2 j3 j4).2 =
      [(mkFcgiHeader kTypeBegin sizeofFcgiRequestBeginBody request_id 0).bytes
        ++ (mkFcgiRequestBeginBody role keep_alive j0 j1 j2 j3 j4).bytes] ∧
    (mkFcgiHeader kTypeBegin sizeofFcgiRequestBeginBody request_id
        0).bytes.length = 8 ∧
    (mkFcgiRequestBeginBody role keep_alive j0 j1 j2 j3 j4).bytes.length = 8 ∧
    ((mkFcgiHeader kTypeBegin sizeofFcgiRequestBeginBody request_id 0).bytes ++
      (mkFcgiRequestBeginBody role keep_alive j0 j1 j2 j3 j4).bytes).length =
      16 ∧
    (startParams send role keep_alive request_id j0 j1 j2 j3 j4).1 =
      send
        ((mkFcgiHeader kTypeBegin sizeofFcgiRequestBeginBody request_id
          0).bytes ++
          (mkFcgiRequestBeginBody role keep_alive j0 j1 j2 j3 j4).bytes) := by
  refine ⟨rfl, rfl, rfl, ?_, rfl⟩
  simp [FcgiHeader.bytes, FcgiRequestBeginBody.bytes]

/-- C8: for every request_id, endParams issues exactly one transport write of
the 8 bytes of a header with type = params(4) and both content-length bytes
0, and returns the transport's result on that buffer. -/
theorem end_params_writes_terminator (send : List Nat → Int)
    (requestID : Nat) :
    (endParams send requestID).2 =
      [(mkFcgiHeader kTypeParams 0 requestID 0).bytes] ∧
    (mkFcgiHeader kTypeParams 0 requestID 0).bytes.length = 8 ∧
    (mkFcgiHeader kTypeParams 0 requestID 0).type = 4 ∧
    (mkFcgiHeader kTypeParams 0 requestID 0).content_length1 = 0 ∧
    (mkFcgiHeader kTypeParams 0 requestID 0).content_length0 = 0 ∧
    (endParams send requestID).1 =
      send (mkFcgiHeader kTypeParams 0 requestID 0).bytes :=
  ⟨rfl, rfl, rfl, rfl, rfl, rfl⟩

/-- The mutable state of a `FcgiManager`: its single field
`int fcgifd_ = -1;`. -/
structure ManagerState where
  fcgifd : Int
deriving Repr, DecidableEq

/-- The state of a freshly constructed manager before any `start`. -/
def initialManagerState : ManagerState := ⟨-1⟩

/-- Source: `inline void closeSocket() { if (fcgifd_ != -1) close(fcgifd_); }`.
Returns the updated state paired with the list of descriptors passed to the
`close` system call.  Note the field is tested but never reset to -1. -/
def closeSocket (s : ManagerState) : ManagerState × List Int :=
  if s.fcgifd ≠ -1 then (s, [s.fcgifd]) else (s, [])

/-- Source: `~FcgiManager() { closeSocket(); }`: destruction runs closeSocket on the
current state; only its close-call trace is observable afterwards. -/
def destroyManager (s : ManagerState) : List Int :=
  (closeSocket s).2

/-- Source: `int FcgiManagerINET::start(const char *addr, const int port)`.
The three system calls are modelled by oracles: `pton` is the result of
`inet_pton(AF_INET, addr, ...)` on the address string (1 when the string is
valid dotted-quad IPv4, 0 when the syntax is invalid, -1 on bad family);
`newFd` is the descriptor returned by `socket(...)` (-1 on failure);
`connectRes` the result of `connect(fd, ...)` (negative on failure).  The
code closes any existing socket first, returns -1 when `inet_pton` does not
return a positive value, and otherwise stores the new descriptor and returns
the `connect` result.  Result: (new state, return value, close-call trace). -/
def inetStart (pton : String → Int) (addr : String)
    (newFd connectRes : Int) (s : ManagerState) :
    ManagerState × Int × List Int :=
  let p := closeSocket s
  if pton addr ≤ 0 then (p.1, -1, p.2)
  else (⟨newFd⟩, connectRes, p.2)

/-- C9: for every address string on which `inet_pton` does not report
success (i.e. every string that is not valid IPv4 dotted-quad syntax), and
any socket/connect oracle results and starting state, `start` returns -1,
a negative result. -/
theorem inet_start_invalid_addr_negative (pton : String → Int) (addr : String)
    (newFd connectRes : Int) (s : ManagerState) (h : pton addr ≤ 0) :
    (inetStart pton addr newFd connectRes s).2.1 = -1 ∧
    (inetStart pton addr newFd connectRes s).2.1 < 0 := by
  simp [inetStart, h]

/-- Witness for C9: an oracle reporting invalid syntax on a non-address
string. -/
theorem inet_start_invalid_addr_negative_witness :
    (inetStart (fun _ => 0) "not an ip" 3 0 initialManagerState).2.1 = -1 ∧
    (inetStart (fun _ => 0) "not an ip" 3 0 initialManagerState).2.1 < 0 :=
  inet_start_invalid_addr_negative (fun _ => 0) "not an ip" 3 0
    initialManagerState (by decide)

/-- C1 counterexample: a manager holding descriptor 5 on which `closeSocket`
is called manually and which is then destroyed closes descriptor 5 twice:
`closeSocket` never resets `fcgifd_` to -1, so close is not idempotent and
the descriptor is not released exactly once. -/
theorem close_then_destroy_double_closes :
    (closeSocket ⟨5⟩).2 ++ destroyManager (closeSocket ⟨5⟩).1 = [5, 5] := by
  decide

/-- C1 amended: calling close when no socket is open (fcgifd_ = -1) is safe
and issues no close call; a successful reconnect closes the old descriptor
before installing the new one, so destroying after a reconnect closes the
old descriptor once and the new one once; but because closeSocket does not
reset the stored descriptor, a manual close followed by destruction closes
the same descriptor a second time. -/
theorem close_safety_and_reconnect (pton : String → Int) (addr : String)
    (f newFd connectRes : Int) (hf : f ≠ -1) (hn : newFd ≠ -1)
    (hp : 0 < pton addr) :
    closeSocket initialManagerState = (initialManagerState, []) ∧
    ((inetStart pton addr newFd connectRes ⟨f⟩).2.2 ++
        destroyManager (inetStart pton addr newFd connectRes ⟨f⟩).1 =
      [f, newFd]) ∧
    ((closeSocket ⟨f⟩).2 ++ destroyManager (closeSocket ⟨f⟩).1 = [f, f]) := by
  have hp2 : ¬pton addr ≤ 0 := by omega
  refine ⟨by simp [closeSocket, initialManagerState], ?_, ?_⟩ <;>
    simp [inetStart, closeSocket, destroyManager, hf, hn, hp2]

/-- Witness for C1's amended statement at f = 5, newFd = 7. -/
theorem close_safety_and_reconnect_witness :
    closeSocket initialManagerState = (initialManagerState, []) ∧
    ((inetStart (fun _ => 1) "127.0.0.1" 7 0 ⟨5⟩).2.2 ++
        destroyManager (inetStart (fun _ => 1) "127.0.0.1" 7 0 ⟨5⟩).1 =
      [5, 7]) ∧
    ((closeSocket ⟨5⟩).2 ++ destroyManager (closeSocket ⟨5⟩).1 = [5, 5]) :=
  close_safety_and_reconnect (fun _ => 1) "127.0.0.1" 5 7 0 (by decide)
    (by decide) (by decide)

end pfcgi
